import Mathlib

/-!
Shallow embedding of `go-project-init` (src/main.go).

The program is a sequential CLI driver.  We embed it as a pure function
over the parsed flag values together with an explicit `World` recording
the outcome of every external call (git global config load, directory
creation, working-directory change, git plain-init, the `go mod init`
subprocess, and the file write).  The result records the exit code, the
lines printed to standard output, whether the usage message was printed,
and the ordered trace of side effects that were attempted.
-/

namespace GoProjectInit

/-- Go's `path.Clean` for slash-separated (unix) paths, as used by
`path/filepath` on non-Windows platforms: collapse repeated separators,
drop `.` components, resolve `..` against a preceding component, keep
leading `..` on relative paths, drop `..` at the root of rooted paths;
an empty result is `.` (or `/` when rooted). -/
def goClean (path : String) : String :=
  let rooted := path.startsWith "/"
  let comps := path.splitOn "/"
  let out := comps.foldl
    (fun acc c =>
      if c = "" || c = "." then acc
      else if c = ".." then
        match acc with
        | [] => if rooted then [] else [".."]
        | prev :: rest => if prev = ".." then c :: acc else rest
      else c :: acc)
    []
  let body := String.intercalate "/" out.reverse
  if rooted then "/" ++ body
  else if body = "" then "." else body

/-- Go's `filepath.Join` on unix: starting from the first non-empty
element, join the remaining elements with `/` and apply `Clean`; all
elements empty yields the empty string. -/
def filepathJoin (elems : List String) : String :=
  match elems.dropWhile (fun e => e = "") with
  | [] => ""
  | rest => goClean (String.intercalate "/" rest)

/-- The `user` section of the global git configuration, as read by
`go-git`'s `config.LoadConfig(config.GlobalScope)` (src/main.go:120-125):
only `user.name` is consulted. -/
structure GitConfig where
  userName : String
deriving DecidableEq

/-- Outcomes of the external calls `main` performs, in program order.
`Except.error e` / `some e` carry the Go error text; `goModOutput` is the
combined output captured from the `go mod init` subprocess. -/
structure World where
  gitConfig : Except String GitConfig
  mkdirErr : Option String
  chdirErr : Option String
  gitInitErr : Option String
  goModOutput : String
  goModErr : Option String
  writeErr : Option String

/-- One attempted side effect, tagged with its arguments as passed in
src/main.go: `os.MkdirAll(path, 0755)`, `os.Chdir(path)`,
`git.PlainInit(path, false)` (the `Bool` is the `isBare` argument),
`exec.Command("go", "mod", "init")`, `os.WriteFile("main.go", …, 0644)`. -/
inductive Effect where
  | mkdirAll (path : String)
  | chdir (path : String)
  | plainInit (path : String) (isBare : Bool)
  | runGoModInit
  | writeFile (name : String) (contents : String)
deriving DecidableEq

/-- Observable result of one run of the program: its exit status, the
lines printed to standard output (each element is one `fmt.Print*` call,
without the trailing newline), whether `flag.Usage` was invoked, and the
ordered trace of attempted side effects. -/
structure RunResult where
  exitCode : Nat
  stdout : List String
  usagePrinted : Bool
  effects : List Effect
deriving DecidableEq

/-- Go `flag` package resolution for a string flag (src/main.go:17-18):
the value supplied on the command line, if any, otherwise the registered
default (`os.Getenv("GOPATH")` for `-gopath`, `""` for `-username`). -/
def flagValue (supplied : Option String) (dflt : String) : String :=
  match supplied with
  | some v => v
  | none => dflt

/-- `getGitUsername` (src/main.go:119-131): load the global git config;
fail if loading fails or `user.name` is empty, otherwise return it. -/
def getGitUsername (cfg : Except String GitConfig) : Except String String :=
  match cfg with
  | Except.error e => Except.error ("failed to load git config: " ++ e)
  | Except.ok c =>
    if c.userName = "" then Except.error "git user.name is not set in global config"
    else Except.ok c.userName

/-- The fatal GOPATH validation message (src/main.go:52). -/
def gopathErrorMsg : String :=
  "Error: GOPATH is not set. Please set GOPATH environment variable or provide it using the -gopath flag."

/-- The usage-error message printed when the positional-argument count is
not one (src/main.go:44). -/
def usageErrorMsg : String :=
  "Error: Project name is required as an argument."

/-- The generated `main.go` contents (src/main.go:100-107): the fixed
template with the project name interpolated into the greeting. -/
def mainContent (projectName : String) : String :=
  "package main\n\nimport \"fmt\"\n\nfunc main() \x7b\n\tfmt.Println(\"Hello from "
    ++ projectName ++ "!\")\n\x7d\n"

/-- The embedding of `main` (src/main.go:14-117), after flag parsing:
`help`, `provider`, `gopath`, `username` are the parsed flag values,
`args` the positional arguments, and `w` the outcomes of the external
calls.  Each `os.Exit` is a return; effects are recorded in the order the
corresponding calls are made. -/
def runMain (help : Bool) (args : List String) (provider gopath username : String)
    (w : World) : RunResult :=
  if help then
    { exitCode := 0, stdout := [], usagePrinted := true, effects := [] }
  else
    match args with
    | [projectName] =>
      if gopath = "" then
        { exitCode := 1, stdout := [gopathErrorMsg], usagePrinted := false, effects := [] }
      else
        match (if username = "" then getGitUsername w.gitConfig else Except.ok username) with
        | Except.error e =>
          { exitCode := 1, stdout := ["Error getting git username: " ++ e],
            usagePrinted := false, effects := [] }
        | Except.ok uname =>
          let projectPath := filepathJoin [gopath, "src", provider, uname, projectName]
          match w.mkdirErr with
          | some e =>
            { exitCode := 1, stdout := ["Error creating project directory: " ++ e],
              usagePrinted := false, effects := [Effect.mkdirAll projectPath] }
          | none =>
            match w.chdirErr with
            | some e =>
              { exitCode := 1, stdout := ["Error changing to project directory: " ++ e],
                usagePrinted := false,
                effects := [Effect.mkdirAll projectPath, Effect.chdir projectPath] }
            | none =>
              match w.gitInitErr with
              | some e =>
                { exitCode := 1, stdout := ["Error initializing Git repository: " ++ e],
                  usagePrinted := false,
                  effects := [Effect.mkdirAll projectPath, Effect.chdir projectPath,
                              Effect.plainInit projectPath false] }
              | none =>
                match w.goModErr with
                | some e =>
                  { exitCode := 1,
                    stdout := ["Error initializing Go module: " ++ e ++ "\n" ++ w.goModOutput],
                    usagePrinted := false,
                    effects := [Effect.mkdirAll projectPath, Effect.chdir projectPath,
                                Effect.plainInit projectPath false, Effect.runGoModInit] }
                | none =>
                  match w.writeErr with
                  | some e =>
                    { exitCode := 1, stdout := ["Error creating main.go file: " ++ e],
                      usagePrinted := false,
                      effects := [Effect.mkdirAll projectPath, Effect.chdir projectPath,
                                  Effect.plainInit projectPath false, Effect.runGoModInit,
                                  Effect.writeFile "main.go" (mainContent projectName)] }
                  | none =>
                    { exitCode := 0,
                      stdout := ["Successfully created and set up Go project at " ++ projectPath,
                                 "Created: Git repository, Go module, and main.go file"],
                      usagePrinted := false,
                      effects := [Effect.mkdirAll projectPath, Effect.chdir projectPath,
                                  Effect.plainInit projectPath false, Effect.runGoModInit,
                                  Effect.writeFile "main.go" (mainContent projectName)] }
    | _ =>
      { exitCode := 1, stdout := [usageErrorMsg], usagePrinted := true, effects := [] }

/-- A world in which every external call succeeds, used to instantiate
witnesses. -/
def allOkWorld : World :=
  { gitConfig := Except.ok { userName := "alice" }
    mkdirErr := none
    chdirErr := none
    gitInitErr := none
    goModOutput := "go: creating new go.mod"
    goModErr := none
    writeErr := none }

/-- C1: for every valid configuration tuple (non-empty base path, supplied
username, one positional project name), the resolved project path — the path
passed to directory creation, the first side effect — equals `filepath.Join`
of base-path, `"src"`, provider, username, project-name, in that order. -/
theorem c1_resolved_path (provider gopath username projectName : String) (w : World)
    (hgp : gopath ≠ "") (hu : username ≠ "") :
    (runMain false [projectName] provider gopath username w).effects.head? =
      some (Effect.mkdirAll (filepathJoin [gopath, "src", provider, username, projectName])) := by
  obtain ⟨cfg, mk, cd, gi, gout, go, wr⟩ := w
  simp only [runMain, if_neg hgp, if_neg hu]
  cases mk <;> cases cd <;> cases gi <;> cases go <;> cases wr <;> rfl

/-- Witness for C1 at a concrete valid configuration. -/
theorem c1_resolved_path_witness :
    ("/home/u/go" : String) ≠ "" ∧ ("alice" : String) ≠ "" ∧
    (runMain false ["proj"] "github.com" "/home/u/go" "alice" allOkWorld).effects.head? =
      some (Effect.mkdirAll (filepathJoin ["/home/u/go", "src", "github.com", "alice", "proj"])) :=
  ⟨by decide, by decide,
    c1_resolved_path "github.com" "/home/u/go" "alice" "proj" allOkWorld (by decide) (by decide)⟩

/-- C3: when base-path resolves to the empty string (flag absent and the
`GOPATH` environment variable empty), the program exits with status 1 and the
effect trace is empty — no directory creation, no working-directory change, no
file write — regardless of the positional arguments and the external world. -/
theorem c3_empty_gopath (args : List String) (provider username : String) (w : World) :
    (runMain false args provider (flagValue none "") username w).exitCode = 1 ∧
    (runMain false args provider (flagValue none "") username w).effects = [] := by
  match args with
  | [] => exact ⟨rfl, rfl⟩
  | [a] => exact ⟨rfl, rfl⟩
  | a :: b :: rest => exact ⟨rfl, rfl⟩

/-- C4: without `-h`, an invocation whose positional-argument count is not
exactly one prints the usage message and exits with status 1. -/
theorem c4_arg_count (args : List String) (provider gopath username : String) (w : World)
    (h : args.length ≠ 1) :
    (runMain false args provider gopath username w).exitCode = 1 ∧
    (runMain false args provider gopath username w).usagePrinted = true := by
  match args with
  | [] => exact ⟨rfl, rfl⟩
  | [a] => exact absurd rfl h
  | a :: b :: rest => exact ⟨rfl, rfl⟩

/-- Witness for C4 at zero positional arguments. -/
theorem c4_arg_count_witness :
    ([] : List String).length ≠ 1 ∧
    (runMain false [] "github.com" "/home/u/go" "alice" allOkWorld).exitCode = 1 ∧
    (runMain false [] "github.com" "/home/u/go" "alice" allOkWorld).usagePrinted = true :=
  ⟨by decide, c4_arg_count [] "github.com" "/home/u/go" "alice" allOkWorld (by decide)⟩

/-- C5: with the `-h` flag the program prints the usage message, exits with
status 0, prints nothing to standard output, and attempts no side effect: the
effect trace is empty, whatever the other flags, arguments and world are. -/
theorem c5_help_flag (args : List String) (provider gopath username : String) (w : World) :
    (runMain true args provider gopath username w).exitCode = 0 ∧
    (runMain true args provider gopath username w).usagePrinted = true ∧
    (runMain true args provider gopath username w).stdout = [] ∧
    (runMain true args provider gopath username w).effects = [] :=
  ⟨rfl, rfl, rfl, rfl⟩

/-- C9: the `-h` check precedes positional-argument validation: for an
argument list whose count is not one (including the empty list), the run with
`-h` prints usage and exits 0, while the same invocation without `-h` would
exit 1. -/
theorem c9_help_before_args (args : List String) (provider gopath username : String)
    (w : World) (h : args.length ≠ 1) :
    (runMain true args provider gopath username w).exitCode = 0 ∧
    (runMain true args provider gopath username w).usagePrinted = true ∧
    (runMain false args provider gopath username w).exitCode = 1 := by
  refine ⟨rfl, rfl, ?_⟩
  match args with
  | [] => exact rfl
  | [a] => exact absurd rfl h
  | a :: b :: rest => exact rfl

/-- Witness for C9 with `-h` and zero positional arguments. -/
theorem c9_help_before_args_witness :
    ([] : List String).length ≠ 1 ∧
    (runMain true [] "github.com" "/home/u/go" "alice" allOkWorld).exitCode = 0 ∧
    (runMain true [] "github.com" "/home/u/go" "alice" allOkWorld).usagePrinted = true ∧
    (runMain false [] "github.com" "/home/u/go" "alice" allOkWorld).exitCode = 1 :=
  ⟨by decide, c9_help_before_args [] "github.com" "/home/u/go" "alice" allOkWorld (by decide)⟩

/-- C2: when every step up to and including `git.PlainInit` succeeds and the
`go mod init` subprocess fails, the program exits with status 1, its last
printed line carries the error together with the captured combined output
verbatim, and the effect trace ends at the subprocess: the directory creation
and the repository initialization remain in the trace and no effect removes
them (no rollback), and the file write never happens. -/
theorem c2_gomod_failure (provider gopath username projectName e : String) (w : World)
    (hgp : gopath ≠ "") (hu : username ≠ "")
    (hmk : w.mkdirErr = none) (hcd : w.chdirErr = none) (hgi : w.gitInitErr = none)
    (hgo : w.goModErr = some e) :
    (runMain false [projectName] provider gopath username w).exitCode = 1 ∧
    (runMain false [projectName] provider gopath username w).stdout =
      ["Error initializing Go module: " ++ e ++ "\n" ++ w.goModOutput] ∧
    (runMain false [projectName] provider gopath username w).effects =
      [Effect.mkdirAll (filepathJoin [gopath, "src", provider, username, projectName]),
       Effect.chdir (filepathJoin [gopath, "src", provider, username, projectName]),
       Effect.plainInit (filepathJoin [gopath, "src", provider, username, projectName]) false,
       Effect.runGoModInit] := by
  obtain ⟨cfg, mk, cd, gi, gout, go, wr⟩ := w
  simp only at hmk hcd hgi hgo
  subst hmk; subst hcd; subst hgi; subst hgo
  simp only [runMain, if_neg hgp, if_neg hu]
  exact ⟨rfl, rfl, rfl⟩

/-- Witness for C2 at a concrete run whose `go mod init` step fails. -/
theorem c2_gomod_failure_witness :
    ("/home/u/go" : String) ≠ "" ∧ ("alice" : String) ≠ "" ∧
    (let w : World :=
      { gitConfig := Except.ok { userName := "alice" }, mkdirErr := none, chdirErr := none,
        gitInitErr := none, goModOutput := "go: cannot determine module path",
        goModErr := some "exit status 1", writeErr := none }
     (runMain false ["proj"] "github.com" "/home/u/go" "alice" w).exitCode = 1 ∧
     (runMain false ["proj"] "github.com" "/home/u/go" "alice" w).stdout =
       ["Error initializing Go module: " ++ "exit status 1" ++ "\n" ++ w.goModOutput] ∧
     (runMain false ["proj"] "github.com" "/home/u/go" "alice" w).effects =
       [Effect.mkdirAll (filepathJoin ["/home/u/go", "src", "github.com", "alice", "proj"]),
        Effect.chdir (filepathJoin ["/home/u/go", "src", "github.com", "alice", "proj"]),
        Effect.plainInit (filepathJoin ["/home/u/go", "src", "github.com", "alice", "proj"]) false,
        Effect.runGoModInit]) :=
  ⟨by decide, by decide,
    c2_gomod_failure "github.com" "/home/u/go" "alice" "proj" "exit status 1"
      { gitConfig := Except.ok { userName := "alice" }, mkdirErr := none, chdirErr := none,
        gitInitErr := none, goModOutput := "go: cannot determine module path",
        goModErr := some "exit status 1", writeErr := none }
      (by decide) (by decide) rfl rfl rfl rfl⟩

/-- C6: with the `-username` flag unsupplied (empty), the username comes from
`getGitUsername` on the global git configuration: the run fails with exit 1
and no side effect when that lookup errors, proceeds with the configured name
in the resolved path when it succeeds, and the lookup errors exactly when the
configuration fails to load or its `user.name` is empty. -/
theorem c6_username_fallback (projectName provider gopath : String) (w : World)
    (hgp : gopath ≠ "") :
    (∀ e, getGitUsername w.gitConfig = Except.error e →
      (runMain false [projectName] provider gopath "" w).exitCode = 1 ∧
      (runMain false [projectName] provider gopath "" w).effects = []) ∧
    (∀ u, getGitUsername w.gitConfig = Except.ok u →
      (runMain false [projectName] provider gopath "" w).effects.head? =
        some (Effect.mkdirAll (filepathJoin [gopath, "src", provider, u, projectName]))) ∧
    ((∃ e, getGitUsername w.gitConfig = Except.error e) ↔
      ((∃ e, w.gitConfig = Except.error e) ∨
       (∃ c, w.gitConfig = Except.ok c ∧ c.userName = ""))) := by
  obtain ⟨cfg, mk, cd, gi, gout, go, wr⟩ := w
  refine ⟨?_, ?_, ?_⟩
  · intro e he
    simp only [runMain, if_neg hgp]
    simp only [World.gitConfig] at he
    simp only [if_pos rfl, he]
    exact ⟨rfl, rfl⟩
  · intro u hu
    simp only [runMain, if_neg hgp]
    simp only [World.gitConfig] at hu
    simp only [if_pos rfl, hu]
    cases mk <;> cases cd <;> cases gi <;> cases go <;> cases wr <;> rfl
  · simp only [World.gitConfig]
    cases cfg with
    | error e => simp [getGitUsername]
    | ok c =>
      by_cases hc : c.userName = "" <;> simp [getGitUsername, hc]

/-- Witness for C6 at a concrete world whose git config carries a name. -/
theorem c6_username_fallback_witness :
    ("/home/u/go" : String) ≠ "" ∧
    ((∀ e, getGitUsername allOkWorld.gitConfig = Except.error e →
      (runMain false ["proj"] "github.com" "/home/u/go" "" allOkWorld).exitCode = 1 ∧
      (runMain false ["proj"] "github.com" "/home/u/go" "" allOkWorld).effects = []) ∧
    (∀ u, getGitUsername allOkWorld.gitConfig = Except.ok u →
      (runMain false ["proj"] "github.com" "/home/u/go" "" allOkWorld).effects.head? =
        some (Effect.mkdirAll (filepathJoin ["/home/u/go", "src", "github.com", u, "proj"]))) ∧
    ((∃ e, getGitUsername allOkWorld.gitConfig = Except.error e) ↔
      ((∃ e, allOkWorld.gitConfig = Except.error e) ∨
       (∃ c, allOkWorld.gitConfig = Except.ok c ∧ c.userName = "")))) :=
  ⟨by decide, c6_username_fallback "proj" "github.com" "/home/u/go" allOkWorld (by decide)⟩

/-- C7: after a successful run with project-name `"demo"`, the entry-point
file `main.go` is written with the template contents, those contents contain
the exact interpolated greeting referencing `"demo"`, and the repository was
initialized non-bare at the project path (the VCS marker at the project
root). -/
theorem c7_success_demo (provider gopath username : String) (w : World)
    (hgp : gopath ≠ "") (hu : username ≠ "")
    (hmk : w.mkdirErr = none) (hcd : w.chdirErr = none) (hgi : w.gitInitErr = none)
    (hgo : w.goModErr = none) (hwr : w.writeErr = none) :
    (runMain false ["demo"] provider gopath username w).exitCode = 0 ∧
    Effect.writeFile "main.go" (mainContent "demo") ∈
      (runMain false ["demo"] provider gopath username w).effects ∧
    mainContent "demo" =
      "package main\n\nimport \"fmt\"\n\nfunc main() \x7b\n\tfmt.Println(\"Hello from demo!\")\n\x7d\n" ∧
    (∃ pre post, mainContent "demo" = pre ++ ("Hello from demo!" ++ post)) ∧
    Effect.plainInit (filepathJoin [gopath, "src", provider, username, "demo"]) false ∈
      (runMain false ["demo"] provider gopath username w).effects := by
  obtain ⟨cfg, mk, cd, gi, gout, go, wr⟩ := w
  simp only at hmk hcd hgi hgo hwr
  subst hmk; subst hcd; subst hgi; subst hgo; subst hwr
  simp only [runMain, if_neg hgp, if_neg hu]
  refine ⟨rfl, ?_, rfl, ?_, ?_⟩
  · simp [mainContent]
  · exact ⟨"package main\n\nimport \"fmt\"\n\nfunc main() \x7b\n\tfmt.Println(\"",
           "\")\n\x7d\n", by decide⟩
  · simp

/-- Witness for C7 at a concrete all-successful run. -/
theorem c7_success_demo_witness :
    ("/home/u/go" : String) ≠ "" ∧ ("alice" : String) ≠ "" ∧
    ((runMain false ["demo"] "github.com" "/home/u/go" "alice" allOkWorld).exitCode = 0 ∧
    Effect.writeFile "main.go" (mainContent "demo") ∈
      (runMain false ["demo"] "github.com" "/home/u/go" "alice" allOkWorld).effects ∧
    mainContent "demo" =
      "package main\n\nimport \"fmt\"\n\nfunc main() \x7b\n\tfmt.Println(\"Hello from demo!\")\n\x7d\n" ∧
    (∃ pre post, mainContent "demo" = pre ++ ("Hello from demo!" ++ post)) ∧
    Effect.plainInit (filepathJoin ["/home/u/go", "src", "github.com", "alice", "demo"]) false ∈
      (runMain false ["demo"] "github.com" "/home/u/go" "alice" allOkWorld).effects) :=
  ⟨by decide, by decide,
    c7_success_demo "github.com" "/home/u/go" "alice" allOkWorld
      (by decide) (by decide) rfl rfl rfl rfl rfl⟩

/-- C8: on a valid invocation the side effects are attempted in the fixed
order directory-creation, working-directory change, repository
initialization, module-init subprocess, file write, and each effect appears
in the trace exactly when every earlier step succeeded: the trace is the
longest prefix of the full sequence allowed by the first failure. -/
theorem c8_step_order (projectName provider gopath username : String) (w : World)
    (hgp : gopath ≠ "") (hu : username ≠ "") :
    (runMain false [projectName] provider gopath username w).effects =
      Effect.mkdirAll (filepathJoin [gopath, "src", provider, username, projectName]) ::
        (if w.mkdirErr = none then
          Effect.chdir (filepathJoin [gopath, "src", provider, username, projectName]) ::
            (if w.chdirErr = none then
              Effect.plainInit (filepathJoin [gopath, "src", provider, username, projectName])
                  false ::
                (if w.gitInitErr = none then
                  Effect.runGoModInit ::
                    (if w.goModErr = none then
                      [Effect.writeFile "main.go" (mainContent projectName)]
                     else [])
                 else [])
             else [])
         else []) := by
  obtain ⟨cfg, mk, cd, gi, gout, go, wr⟩ := w
  simp only [runMain, if_neg hgp, if_neg hu]
  cases mk <;> cases cd <;> cases gi <;> cases go <;> cases wr <;> simp

/-- Witness for C8 at a concrete run that fails at the module-init step. -/
theorem c8_step_order_witness :
    ("/home/u/go" : String) ≠ "" ∧ ("alice" : String) ≠ "" ∧
    (let w : World :=
      { gitConfig := Except.ok { userName := "alice" }, mkdirErr := none, chdirErr := none,
        gitInitErr := none, goModOutput := "boom", goModErr := some "exit status 1",
        writeErr := none }
     (runMain false ["proj"] "github.com" "/home/u/go" "alice" w).effects =
      Effect.mkdirAll (filepathJoin ["/home/u/go", "src", "github.com", "alice", "proj"]) ::
        (if w.mkdirErr = none then
          Effect.chdir (filepathJoin ["/home/u/go", "src", "github.com", "alice", "proj"]) ::
            (if w.chdirErr = none then
              Effect.plainInit (filepathJoin ["/home/u/go", "src", "github.com", "alice", "proj"])
                  false ::
                (if w.gitInitErr = none then
                  Effect.runGoModInit ::
                    (if w.goModErr = none then
                      [Effect.writeFile "main.go" (mainContent "proj")]
                     else [])
                 else [])
             else [])
         else [])) :=
  ⟨by decide, by decide,
    c8_step_order "proj" "github.com" "/home/u/go" "alice"
      { gitConfig := Except.ok { userName := "alice" }, mkdirErr := none, chdirErr := none,
        gitInitErr := none, goModOutput := "boom", goModErr := some "exit status 1",
        writeErr := none }
      (by decide) (by decide)⟩

/-- C10: an explicitly supplied empty-string flag is indistinguishable from an
absent one.  Supplying `-gopath ""` overrides a non-empty environment value
with the empty string and the run fails with the fatal GOPATH error (exit 1,
no side effect).  Supplying `-username ""` resolves like the absent flag
(default `""`), so the git-config fallback is used: the resolved path carries
the configured name, not the empty string. -/
theorem c10_empty_flag_like_absent (envGopath provider username projectName : String)
    (w : World) (henv : envGopath ≠ "") :
    flagValue (some "") envGopath = "" ∧
    (runMain false [projectName] provider (flagValue (some "") envGopath) username w).exitCode
        = 1 ∧
    (runMain false [projectName] provider (flagValue (some "") envGopath) username w).effects
        = [] ∧
    (runMain false [projectName] provider (flagValue (some "") envGopath) username w).stdout
        = [gopathErrorMsg] ∧
    flagValue (some "") "" = flagValue none "" ∧
    (∀ u, getGitUsername w.gitConfig = Except.ok u →
      (runMain false [projectName] provider envGopath (flagValue (some "") "") w).effects.head?
        = some (Effect.mkdirAll (filepathJoin [envGopath, "src", provider, u, projectName]))) := by
  obtain ⟨cfg, mk, cd, gi, gout, go, wr⟩ := w
  refine ⟨rfl, rfl, rfl, rfl, rfl, ?_⟩
  intro u hu
  simp only [runMain, flagValue, if_neg henv]
  simp only [World.gitConfig] at hu
  simp only [if_pos rfl, hu]
  cases mk <;> cases cd <;> cases gi <;> cases go <;> cases wr <;> rfl

/-- Witness for C10 with a non-empty environment GOPATH. -/
theorem c10_empty_flag_like_absent_witness :
    ("/home/u/go" : String) ≠ "" ∧
    (flagValue (some "") "/home/u/go" = "" ∧
    (runMain false ["proj"] "github.com" (flagValue (some "") "/home/u/go") "alice"
        allOkWorld).exitCode = 1 ∧
    (runMain false ["proj"] "github.com" (flagValue (some "") "/home/u/go") "alice"
        allOkWorld).effects = [] ∧
    (runMain false ["proj"] "github.com" (flagValue (some "") "/home/u/go") "alice"
        allOkWorld).stdout = [gopathErrorMsg] ∧
    flagValue (some "") "" = flagValue none "" ∧
    (∀ u, getGitUsername allOkWorld.gitConfig = Except.ok u →
      (runMain false ["proj"] "github.com" "/home/u/go" (flagValue (some "") "")
          allOkWorld).effects.head?
        = some (Effect.mkdirAll
            (filepathJoin ["/home/u/go", "src", "github.com", u, "proj"])))) :=
  ⟨by decide,
    c10_empty_flag_like_absent "/home/u/go" "github.com" "alice" "proj" allOkWorld (by decide)⟩

end GoProjectInit
